import Mathlib

/-!
Verification of the similarity / TF-IDF / job-orchestration core of the
Document-Similarity-Checker backend.

The embedding follows the Python source under `backend/app`:
 - `SimilarityComputer.cosine_similarity`, `compute_pairwise_similarities`,
   `create_similarity_matrix`, `compute_statistics`
   (`app/services/similarity_service.py`);
 - `DocumentProcessor.preprocess_text` and the TF-IDF pipeline configuration
   (`app/services/document_processor.py`);
 - `AnalysisService.create_job`, `_update_job_status`, `_perform_analysis`,
   `list_jobs` (`app/services/analysis_service.py`) together with
   `ValidationHelper` (`app/utils/helpers.py`) and the exception taxonomy
   (`app/core/exceptions.py`).

Machine floats are modelled by exact real (or rational) arithmetic; `round(x, 4)`
is modelled as rounding to the nearest multiple of `1/10000` (Python rounds a
float to the nearest representable value; exact decimal ties do not occur in the
concrete inputs used below, so the tie-breaking convention is immaterial here).
-/

namespace DocSim

/-! ## Error taxonomy (`app/core/exceptions.py`)

Every application exception carries a human message and a stable
machine-readable `error_code`.  Only the fields that the claims mention are
modelled. -/

structure AppError where
  message : String
  errorCode : String
  deriving Repr, DecidableEq

/-- `DocumentProcessingException` : default `error_code` is `PROCESSING_ERROR`
(`exceptions.py`, lines 71-85). -/
def documentProcessingError (msg : String) : AppError :=
  { message := msg, errorCode := "PROCESSING_ERROR" }

/-- `SparkException` : default `error_code` is `SPARK_ERROR`
(`exceptions.py`, lines 88-102). -/
def sparkError (msg : String) : AppError :=
  { message := msg, errorCode := "SPARK_ERROR" }

/-- `InsufficientDocumentsException` : `error_code` is `INSUFFICIENT_DOCUMENTS`
(`exceptions.py`, lines 122-136). -/
def insufficientDocumentsError (msg : String) : AppError :=
  { message := msg, errorCode := "INSUFFICIENT_DOCUMENTS" }

/-- `ValidationException` with the `ERR_INVALID_THRESHOLD = "INVALID_THRESHOLD"`
code, as raised by `ValidationHelper.validate_threshold`
(`helpers.py`, lines 258-273; `config.py`, line 162). -/
def invalidThresholdError (msg : String) : AppError :=
  { message := msg, errorCode := "INVALID_THRESHOLD" }

/-- `AppConstants.MIN_DOCUMENTS_FOR_ANALYSIS` (`config.py`, line 165). -/
def minDocumentsForAnalysis : Nat := 2

/-! ## Rounding

`round(x, 4)` from `similarity_service.py`: round to the nearest 4-decimal
value. -/

/-- Rounding a real number to 4 decimal places, the model of Python
`round(x, 4)` used throughout `similarity_service.py`. -/
noncomputable def round4 (x : ℝ) : ℝ := (round (x * 10000) : ℤ) / 10000

/-! ## Cosine similarity (`SimilarityComputer.cosine_similarity`, lines 50-81)

Vectors are the dense float arrays obtained from the Spark ML vectors; they are
modelled as `List ℝ`.  `np.dot` is the elementwise product-sum and
`np.linalg.norm` the square root of the sum of squares. -/

/-- `np.dot(vec1, vec2)` on equal-length 1-d arrays: sum of pointwise products. -/
def dotProduct (v w : List ℝ) : ℝ := (List.zipWith (· * ·) v w).sum

/-- `np.linalg.norm(vec)` : the L2 norm, square root of the sum of squares. -/
noncomputable def l2norm (v : List ℝ) : ℝ := Real.sqrt ((v.map (fun x => x ^ 2)).sum)

/-- `SimilarityComputer.cosine_similarity` (`similarity_service.py`, lines
50-81): returns `0.0` when either norm is zero, otherwise the dot product over
the product of norms, clamped by `max(0.0, min(1.0, similarity))`. -/
noncomputable def cosineSimilarity (v w : List ℝ) : ℝ :=
  if l2norm v = 0 ∨ l2norm w = 0 then 0
  else max 0 (min 1 (dotProduct v w / (l2norm v * l2norm w)))

lemma dotProduct_comm (v w : List ℝ) : dotProduct v w = dotProduct w v := by
  unfold dotProduct
  rw [List.zipWith_comm_of_comm]
  exact fun a b => mul_comm a b

lemma cosineSimilarity_comm (v w : List ℝ) :
    cosineSimilarity v w = cosineSimilarity w v := by
  unfold cosineSimilarity
  by_cases hv : l2norm v = 0
  · rw [if_pos (Or.inl hv), if_pos (Or.inr hv)]
  · by_cases hw : l2norm w = 0
    · rw [if_pos (Or.inr hw), if_pos (Or.inl hw)]
    · rw [if_neg (by rintro (h | h) <;> [exact hv h; exact hw h]),
        if_neg (by rintro (h | h) <;> [exact hw h; exact hv h]),
        dotProduct_comm, mul_comm (l2norm v)]

lemma cosineSimilarity_nonneg (v w : List ℝ) : 0 ≤ cosineSimilarity v w := by
  unfold cosineSimilarity
  split
  · exact le_refl 0
  · exact le_max_left 0 _

lemma cosineSimilarity_le_one (v w : List ℝ) : cosineSimilarity v w ≤ 1 := by
  unfold cosineSimilarity
  split
  · exact zero_le_one
  · exact max_le zero_le_one (min_le_left 1 _)

lemma cosineSimilarity_of_zero_norm (v w : List ℝ)
    (h : l2norm v = 0 ∨ l2norm w = 0) : cosineSimilarity v w = 0 := by
  unfold cosineSimilarity
  exact if_pos h

lemma cosineSimilarity_of_ne_zero (v w : List ℝ)
    (hv : l2norm v ≠ 0) (hw : l2norm w ≠ 0) :
    cosineSimilarity v w = max 0 (min 1 (dotProduct v w / (l2norm v * l2norm w))) := by
  unfold cosineSimilarity
  exact if_neg (by rintro (h | h) <;> [exact hv h; exact hw h])

/-- C3: For every pair of vectors `a` and `b`,
`cosine_similarity(a, b) = cosine_similarity(b, a)` and the result lies in
`[0.0, 1.0]`; if either vector has zero L2 norm the result is exactly `0.0`,
and otherwise it is the dot product divided by the product of the L2 norms,
clamped to `[0.0, 1.0]`. -/
theorem C3_cosine_similarity_spec (a b : List ℝ) :
    cosineSimilarity a b = cosineSimilarity b a ∧
    0 ≤ cosineSimilarity a b ∧ cosineSimilarity a b ≤ 1 ∧
    (l2norm a = 0 ∨ l2norm b = 0 → cosineSimilarity a b = 0) ∧
    (l2norm a ≠ 0 → l2norm b ≠ 0 →
      cosineSimilarity a b =
        max 0 (min 1 (dotProduct a b / (l2norm a * l2norm b)))) :=
  ⟨cosineSimilarity_comm a b, cosineSimilarity_nonneg a b,
    cosineSimilarity_le_one a b, cosineSimilarity_of_zero_norm a b,
    fun ha hb => cosineSimilarity_of_ne_zero a b ha hb⟩

lemma l2norm_single_zero : l2norm [(0 : ℝ)] = 0 := by
  unfold l2norm
  norm_num

lemma l2norm_pair_34 : l2norm [(3 : ℝ), 4] ≠ 0 := by
  unfold l2norm
  intro h
  have h5 : ((([(3 : ℝ), 4]).map (fun x => x ^ 2)).sum) = 25 := by norm_num
  rw [h5] at h
  have := Real.sqrt_pos.mpr (show (0 : ℝ) < 25 by norm_num)
  linarith

/-- Witness for C3 at concrete inputs: the zero-norm branch at `[0]`, `[3,4]`
and the nonzero branch at `[3,4]`, `[3,4]`. -/
theorem C3_cosine_similarity_spec_witness :
    ((l2norm [(0 : ℝ)] = 0 ∨ l2norm [(3 : ℝ), 4] = 0) ∧
      cosineSimilarity [(0 : ℝ)] [(3 : ℝ), 4] = 0) ∧
    ((l2norm [(3 : ℝ), 4] ≠ 0) ∧
      cosineSimilarity [(3 : ℝ), 4] [(3 : ℝ), 4] =
        max 0 (min 1 (dotProduct [(3 : ℝ), 4] [(3 : ℝ), 4] /
          (l2norm [(3 : ℝ), 4] * l2norm [(3 : ℝ), 4])))) :=
  ⟨⟨Or.inl l2norm_single_zero,
      (C3_cosine_similarity_spec [(0 : ℝ)] [(3 : ℝ), 4]).2.2.2.1
        (Or.inl l2norm_single_zero)⟩,
    ⟨l2norm_pair_34,
      (C3_cosine_similarity_spec [(3 : ℝ), 4] [(3 : ℝ), 4]).2.2.2.2
        l2norm_pair_34 l2norm_pair_34⟩⟩

/-! ## Stable descending sort

`similarities.sort(key=lambda x: x['similarity'], reverse=True)` and
`jobs.sort(key=lambda x: x.created_at, reverse=True)` use Python `list.sort`,
a stable sort; with `reverse=True` elements whose keys compare equal keep
their original relative order.  A stable sort is extensionally unique, so it is
modelled by a stable insertion sort on a key function. -/

section StableSort

variable {α : Type} {β : Type} [LinearOrder β]

/-- Insert `x` into `l` directly before the first element whose key is `≤ key x`
(so among equal keys the earlier-generated element `x` comes first). -/
def insertKeyDesc (key : α → β) (x : α) : List α → List α
  | [] => [x]
  | y :: ys => if key y ≤ key x then x :: y :: ys else y :: insertKeyDesc key x ys

/-- Stable sort by `key`, descending: the model of Python
`list.sort(key=..., reverse=True)`. -/
def sortByKeyDesc (key : α → β) : List α → List α
  | [] => []
  | x :: xs => insertKeyDesc key x (sortByKeyDesc key xs)

lemma perm_insertKeyDesc (key : α → β) (x : α) (l : List α) :
    List.Perm (insertKeyDesc key x l) (x :: l) := by
  induction l with
  | nil => rfl
  | cons y ys ih =>
    unfold insertKeyDesc
    split
    · rfl
    · exact ((ih.cons y).trans (List.Perm.swap x y ys))

lemma perm_sortByKeyDesc (key : α → β) (l : List α) :
    List.Perm (sortByKeyDesc key l) l := by
  induction l with
  | nil => rfl
  | cons x xs ih =>
    exact (perm_insertKeyDesc key x (sortByKeyDesc key xs)).trans (ih.cons x)

lemma mem_sortByKeyDesc (key : α → β) (a : α) (l : List α) :
    a ∈ sortByKeyDesc key l ↔ a ∈ l :=
  (perm_sortByKeyDesc key l).mem_iff

lemma length_sortByKeyDesc (key : α → β) (l : List α) :
    (sortByKeyDesc key l).length = l.length :=
  (perm_sortByKeyDesc key l).length_eq

lemma pairwise_insertKeyDesc (key : α → β) (x : α) (l : List α)
    (h : l.Pairwise (fun a b => key b ≤ key a)) :
    (insertKeyDesc key x l).Pairwise (fun a b => key b ≤ key a) := by
  induction l with
  | nil => simp [insertKeyDesc]
  | cons y ys ih =>
    rw [List.pairwise_cons] at h
    unfold insertKeyDesc
    split
    · rename_i hyx
      rw [List.pairwise_cons]
      refine ⟨?_, List.pairwise_cons.mpr h⟩
      intro b hb
      rcases List.mem_cons.mp hb with rfl | hb
      · exact hyx
      · exact le_trans (h.1 b hb) hyx
    · rename_i hyx
      rw [List.pairwise_cons]
      refine ⟨?_, ih h.2⟩
      intro b hb
      rcases List.mem_cons.mp ((perm_insertKeyDesc key x ys).mem_iff.mp hb) with
        rfl | h1
      · exact le_of_lt (lt_of_not_le hyx)
      · exact h.1 b h1

lemma pairwise_sortByKeyDesc (key : α → β) (l : List α) :
    (sortByKeyDesc key l).Pairwise (fun a b => key b ≤ key a) := by
  induction l with
  | nil => simp [sortByKeyDesc]
  | cons x xs ih => exact pairwise_insertKeyDesc key x _ ih

lemma filter_insertKeyDesc (key : α → β) (c : β) (x : α) (l : List α) :
    (insertKeyDesc key x l).filter (fun p => key p = c) =
      if key x = c then x :: l.filter (fun p => key p = c)
      else l.filter (fun p => key p = c) := by
  induction l with
  | nil => by_cases hx : key x = c <;> simp [insertKeyDesc, hx]
  | cons y ys ih =>
    unfold insertKeyDesc
    split
    · rename_i hyx
      by_cases hx : key x = c <;> simp [hx, List.filter_cons]
    · rename_i hyx
      by_cases hx : key x = c
      · have hy : ¬ (key y = c) := by
          intro hy
          exact hyx (le_of_eq (hy.trans hx.symm))
        simp [List.filter_cons, hy, ih, hx]
      · by_cases hy : key y = c <;> simp [List.filter_cons, hy, ih, hx]

/-- Stability: among elements whose sort keys are equal, `sortByKeyDesc`
preserves the original order. -/
lemma filter_sortByKeyDesc (key : α → β) (c : β) (l : List α) :
    (sortByKeyDesc key l).filter (fun p => key p = c) =
      l.filter (fun p => key p = c) := by
  induction l with
  | nil => rfl
  | cons x xs ih =>
    show (insertKeyDesc key x (sortByKeyDesc key xs)).filter _ = _
    rw [filter_insertKeyDesc key c x (sortByKeyDesc key xs), ih]
    by_cases hx : key x = c <;> simp [List.filter_cons, hx]

end StableSort

/-! ## Pair generation (`compute_pairwise_similarities`, lines 160-189)

The nested loops `for i in range(n): for j in range(i + 1, n):` generate every
unordered index pair `(i, j)` with `i < j` exactly once. -/

/-- The index pairs visited by the nested loops: `i` from `range(n)`, `j` from
`range(i + 1, n)`. -/
def allPairs (n : Nat) : List (Nat × Nat) :=
  (List.range n).flatMap (fun i => (List.range' (i + 1) (n - (i + 1))).map (fun j => (i, j)))

lemma mem_allPairs (n i j : Nat) : (i, j) ∈ allPairs n ↔ i < j ∧ j < n := by
  unfold allPairs
  rw [List.mem_flatMap]
  constructor
  · rintro ⟨a, ha, hmem⟩
    rw [List.mem_map] at hmem
    obtain ⟨b, hb, heq⟩ := hmem
    obtain ⟨rfl, rfl⟩ := Prod.mk.injEq .. ▸ heq
    rw [List.mem_range'_1] at hb
    rw [List.mem_range] at ha
    exact ⟨hb.1, lt_of_lt_of_le hb.2 (by omega)⟩
  · rintro ⟨hij, hjn⟩
    refine ⟨i, List.mem_range.mpr (lt_trans hij hjn), List.mem_map.mpr ⟨j, ?_, rfl⟩⟩
    rw [List.mem_range'_1]
    omega

lemma nodup_allPairs (n : Nat) : (allPairs n).Nodup := by
  unfold allPairs
  rw [List.nodup_flatMap]
  constructor
  · intro i _
    exact ((List.nodup_range' ..).map (fun a b h => (Prod.mk.injEq .. ▸ h).2))
  · have : ∀ i₁ i₂ : Nat, i₁ ≠ i₂ →
        List.Disjoint ((List.range' (i₁ + 1) (n - (i₁ + 1))).map (fun j => (i₁, j)))
          ((List.range' (i₂ + 1) (n - (i₂ + 1))).map (fun j => (i₂, j))) := by
      intro i₁ i₂ hne p hp1 hp2
      rw [List.mem_map] at hp1 hp2
      obtain ⟨a, _, rfl⟩ := hp1
      obtain ⟨b, _, hb⟩ := hp2
      exact hne ((Prod.mk.injEq .. ▸ hb).1).symm
    exact List.Pairwise.imp_of_mem (fun {a b} _ _ h => this a b h)
      ((List.nodup_range n).imp (fun h => h))

lemma length_allPairs (n : Nat) : (allPairs n).length = n.choose 2 := by
  unfold allPairs
  rw [List.length_flatMap]
  have h1 : (List.map (List.length ∘ fun i =>
      (List.range' (i + 1) (n - (i + 1))).map (fun j => (i, j))) (List.range n)).sum =
      ∑ i ∈ Finset.range n, (n - 1 - i) := by
    rw [show (∑ i ∈ Finset.range n, (n - 1 - i)) =
      ((List.range n).map (fun i => n - 1 - i)).sum from rfl]
    apply congrArg
    apply List.map_congr_left
    intro i _
    simp only [Function.comp_apply, List.length_map, List.length_range']
    omega
  rw [h1, Finset.sum_range_reflect (fun i => i) n]
  have := Finset.sum_range_id_mul_two n
  rw [Nat.choose_two_right]
  omega

/-! ## Feature documents and similarity pairs -/

/-- One collected row of the features DataFrame: `doc_id`, `filename` and the
TF-IDF feature vector (`compute_pairwise_similarities`, lines 143-158). -/
structure FeatDoc where
  docId : String
  filename : String
  features : List ℝ
  deriving Inhabited

/-- One element of the similarity list built at lines 179-186 of
`similarity_service.py`. -/
structure SimPair where
  doc1Id : String
  doc1Name : String
  doc2Id : String
  doc2Name : String
  similarity : ℝ
  flagged : Bool

/-- The raw (unrounded) cosine similarity of documents `i` and `j`, exactly
`self.cosine_similarity(vec1, vec2)` at line 171. -/
noncomputable def rawSim (docs : List FeatDoc) (i j : Nat) : ℝ :=
  cosineSimilarity (docs.getD i default).features (docs.getD j default).features

/-- The dictionary appended at lines 179-186: ids and names of both documents,
`round(similarity, 4)`, and `flagged = similarity >= threshold` (computed on
the raw similarity). -/
noncomputable def mkSimPair (docs : List FeatDoc) (threshold : ℝ) (i j : Nat) : SimPair :=
  { doc1Id := (docs.getD i default).docId
    doc1Name := (docs.getD i default).filename
    doc2Id := (docs.getD j default).docId
    doc2Name := (docs.getD j default).filename
    similarity := round4 (rawSim docs i j)
    flagged := decide (threshold ≤ rawSim docs i j) }

/-- The pair list in generation order (lines 160-186): for each `(i, j)` with
`i < j` the pair is kept when `include_all_pairs or flagged`. -/
noncomputable def generatedPairs (docs : List FeatDoc) (threshold : ℝ)
    (includeAllPairs : Bool) : List SimPair :=
  (allPairs docs.length).filterMap (fun ij =>
    if includeAllPairs = true ∨ threshold ≤ rawSim docs ij.1 ij.2
    then some (mkSimPair docs threshold ij.1 ij.2) else none)

/-- `SimilarityComputer.compute_pairwise_similarities` (lines 83-209): raises
`DocumentProcessingException` when fewer than
`AppConstants.MIN_DOCUMENTS_FOR_ANALYSIS = 2` documents are present, otherwise
returns the generated pairs sorted by (stored) similarity descending with the
stable Python sort.  The Spark caching / logging operations have no effect on
the returned value and are not modelled. -/
noncomputable def computePairwiseSimilarities (docs : List FeatDoc) (threshold : ℝ)
    (includeAllPairs : Bool) : Except AppError (List SimPair) :=
  if docs.length < minDocumentsForAnalysis then
    .error (documentProcessingError "Need at least 2 documents")
  else
    .ok (sortByKeyDesc (fun p => p.similarity)
      (generatedPairs docs threshold includeAllPairs))

lemma filterMap_if_of_all {γ δ : Type} (P : γ → Prop) [DecidablePred P] (g : γ → δ)
    (l : List γ) (h : ∀ a ∈ l, P a) :
    l.filterMap (fun a => if P a then some (g a) else none) = l.map g := by
  induction l with
  | nil => rfl
  | cons x xs ih =>
    rw [List.filterMap_cons, if_pos (h x (List.mem_cons_self x xs)), List.map_cons,
      ih (fun a ha => h a (List.mem_cons_of_mem x ha))]

lemma mem_generatedPairs (docs : List FeatDoc) (t : ℝ) (iap : Bool) (p : SimPair) :
    p ∈ generatedPairs docs t iap ↔
      ∃ i j, i < j ∧ j < docs.length ∧ (iap = true ∨ t ≤ rawSim docs i j) ∧
        p = mkSimPair docs t i j := by
  unfold generatedPairs
  rw [List.mem_filterMap]
  constructor
  · rintro ⟨⟨i, j⟩, hmem, hf⟩
    rw [mem_allPairs] at hmem
    by_cases hc : iap = true ∨ t ≤ rawSim docs i j
    · rw [if_pos hc] at hf
      exact ⟨i, j, hmem.1, hmem.2, hc, (Option.some.injEq .. ▸ hf).symm⟩
    · rw [if_neg hc] at hf
      exact absurd hf (Option.noConfusion)
  · rintro ⟨i, j, hij, hjn, hc, rfl⟩
    exact ⟨(i, j), (mem_allPairs docs.length i j).mpr ⟨hij, hjn⟩, if_pos hc⟩

lemma generatedPairs_all (docs : List FeatDoc) (t : ℝ) :
    generatedPairs docs t true =
      (allPairs docs.length).map (fun ij => mkSimPair docs t ij.1 ij.2) := by
  unfold generatedPairs
  exact filterMap_if_of_all _ _ _ (fun a _ => Or.inl rfl)

/-- C2: For every input of `n ≥ 2` feature vectors, `compute_pairs` considers
every unordered pair `(i, j)` with `i < j` exactly once, sets
`flagged = (similarity ≥ threshold)`, includes the pair iff
`include_all_pairs` is true or `flagged` is true (so with
`include_all_pairs = false` every returned pair has raw similarity
`≥ threshold`, and with `include_all_pairs = true` exactly `C(n, 2)` pairs are
returned), and returns the pairs sorted by similarity descending with ties
keeping original pair-generation order. -/
theorem C2_compute_pairs_spec (docs : List FeatDoc) (t : ℝ) (iap : Bool)
    (h : 2 ≤ docs.length) :
    computePairwiseSimilarities docs t iap =
      .ok (sortByKeyDesc (fun p => p.similarity) (generatedPairs docs t iap)) ∧
    (∀ i j : Nat, (i, j) ∈ allPairs docs.length ↔ i < j ∧ j < docs.length) ∧
    (allPairs docs.length).Nodup ∧
    (∀ i j : Nat, (mkSimPair docs t i j).flagged = decide (t ≤ rawSim docs i j)) ∧
    (∀ p ∈ sortByKeyDesc (fun p => p.similarity) (generatedPairs docs t iap),
      ∃ i j, i < j ∧ j < docs.length ∧ (iap = true ∨ t ≤ rawSim docs i j) ∧
        p = mkSimPair docs t i j) ∧
    (∀ i j : Nat, i < j → j < docs.length → (iap = true ∨ t ≤ rawSim docs i j) →
      mkSimPair docs t i j ∈
        sortByKeyDesc (fun p => p.similarity) (generatedPairs docs t iap)) ∧
    (iap = true →
      (sortByKeyDesc (fun p => p.similarity) (generatedPairs docs t iap)).length =
        docs.length.choose 2) ∧
    (sortByKeyDesc (fun p => p.similarity) (generatedPairs docs t iap)).Pairwise
      (fun a b => b.similarity ≤ a.similarity) ∧
    (∀ c : ℝ,
      (sortByKeyDesc (fun p => p.similarity) (generatedPairs docs t iap)).filter
          (fun p => p.similarity = c) =
        (generatedPairs docs t iap).filter (fun p => p.similarity = c)) := by
  refine ⟨?_, fun i j => mem_allPairs docs.length i j, nodup_allPairs docs.length,
    fun i j => rfl, ?_, ?_, ?_, pairwise_sortByKeyDesc _ _, ?_⟩
  · unfold computePairwiseSimilarities minDocumentsForAnalysis
    rw [if_neg (by omega)]
  · intro p hp
    exact (mem_generatedPairs docs t iap p).mp
      ((mem_sortByKeyDesc _ p _).mp hp)
  · intro i j hij hjn hc
    exact (mem_sortByKeyDesc _ _ _).mpr
      ((mem_generatedPairs docs t iap _).mpr ⟨i, j, hij, hjn, hc, rfl⟩)
  · intro hiap
    subst hiap
    rw [length_sortByKeyDesc, generatedPairs_all, List.length_map, length_allPairs]
  · intro c
    exact filter_sortByKeyDesc (fun p : SimPair => p.similarity) c _

/-- Two concrete feature documents used to witness C2. -/
noncomputable def twoDocs : List FeatDoc :=
  [{ docId := "d1", filename := "a.txt", features := [1, 0] },
   { docId := "d2", filename := "b.txt", features := [0, 1] }]

/-- Witness for C2 at a concrete two-document input. -/
theorem C2_compute_pairs_spec_witness :
    2 ≤ twoDocs.length ∧
    (computePairwiseSimilarities twoDocs (7/10) true =
      .ok (sortByKeyDesc (fun p => p.similarity) (generatedPairs twoDocs (7/10) true)) ∧
    (∀ i j : Nat, (i, j) ∈ allPairs twoDocs.length ↔ i < j ∧ j < twoDocs.length) ∧
    (allPairs twoDocs.length).Nodup ∧
    (∀ i j : Nat,
      (mkSimPair twoDocs (7/10) i j).flagged = decide ((7/10 : ℝ) ≤ rawSim twoDocs i j)) ∧
    (∀ p ∈ sortByKeyDesc (fun p => p.similarity) (generatedPairs twoDocs (7/10) true),
      ∃ i j, i < j ∧ j < twoDocs.length ∧
        (true = true ∨ (7/10 : ℝ) ≤ rawSim twoDocs i j) ∧
        p = mkSimPair twoDocs (7/10) i j) ∧
    (∀ i j : Nat, i < j → j < twoDocs.length →
      (true = true ∨ (7/10 : ℝ) ≤ rawSim twoDocs i j) →
      mkSimPair twoDocs (7/10) i j ∈
        sortByKeyDesc (fun p => p.similarity) (generatedPairs twoDocs (7/10) true)) ∧
    (true = true →
      (sortByKeyDesc (fun p => p.similarity)
        (generatedPairs twoDocs (7/10) true)).length = twoDocs.length.choose 2) ∧
    (sortByKeyDesc (fun p => p.similarity) (generatedPairs twoDocs (7/10) true)).Pairwise
      (fun a b => b.similarity ≤ a.similarity) ∧
    (∀ c : ℝ,
      (sortByKeyDesc (fun p => p.similarity) (generatedPairs twoDocs (7/10) true)).filter
          (fun p => p.similarity = c) =
        (generatedPairs twoDocs (7/10) true).filter (fun p => p.similarity = c))) :=
  ⟨by simp [twoDocs], C2_compute_pairs_spec twoDocs (7/10) true (by simp [twoDocs])⟩

/-- A single-document input, insufficient for analysis. -/
noncomputable def oneDoc : List FeatDoc :=
  [{ docId := "d1", filename := "a.txt", features := [1, 0] }]

/-- Counterexample for C6: with fewer than 2 vectors,
`compute_pairwise_similarities` raises `DocumentProcessingException`, whose
machine-readable kind is the generic `PROCESSING_ERROR`, not
`INSUFFICIENT_DOCUMENTS` (the kind of `InsufficientDocumentsException`). -/
theorem C6_counterexample :
    computePairwiseSimilarities oneDoc (7/10) true =
      .error (documentProcessingError "Need at least 2 documents") ∧
    (documentProcessingError "Need at least 2 documents").errorCode =
      "PROCESSING_ERROR" ∧
    (documentProcessingError "Need at least 2 documents").errorCode ≠
      (insufficientDocumentsError "Need at least 2 documents for analysis").errorCode := by
  refine ⟨?_, rfl, by decide⟩
  unfold computePairwiseSimilarities minDocumentsForAnalysis
  rw [if_pos (by simp [oneDoc])]

/-- C6 amended: for fewer than 2 feature vectors,
`compute_pairwise_similarities` fails with `DocumentProcessingException`,
whose machine-readable kind is the generic `PROCESSING_ERROR`, not the
insufficient-documents kind. -/
theorem C6_amended (docs : List FeatDoc) (t : ℝ) (iap : Bool)
    (h : docs.length < 2) :
    computePairwiseSimilarities docs t iap =
      .error (documentProcessingError "Need at least 2 documents") ∧
    (documentProcessingError "Need at least 2 documents").errorCode =
      "PROCESSING_ERROR" := by
  refine ⟨?_, rfl⟩
  unfold computePairwiseSimilarities minDocumentsForAnalysis
  rw [if_pos h]

/-- Witness for the amended C6 at a concrete single-document input. -/
theorem C6_amended_witness :
    oneDoc.length < 2 ∧
    (computePairwiseSimilarities oneDoc (1/2) false =
      .error (documentProcessingError "Need at least 2 documents") ∧
    (documentProcessingError "Need at least 2 documents").errorCode =
      "PROCESSING_ERROR") :=
  ⟨by simp [oneDoc], C6_amended oneDoc (1/2) false (by simp [oneDoc])⟩

/-! ## Rounding lemmas -/

lemma round4_one : round4 1 = 1 := by
  unfold round4
  rw [one_mul, show ((10000 : ℝ)) = ((10000 : ℤ) : ℝ) by norm_num, round_intCast]
  norm_num

lemma round4_mono {x y : ℝ} (h : x ≤ y) : round4 x ≤ round4 y := by
  unfold round4
  have h1 : round (x * 10000) ≤ round (y * 10000) := by
    rw [round_eq, round_eq]
    exact Int.floor_le_floor (by linarith)
  have h2 : ((round (x * 10000) : ℤ) : ℝ) ≤ ((round (y * 10000) : ℤ) : ℝ) :=
    Int.cast_le.mpr h1
  linarith

lemma rawSim_comm (docs : List FeatDoc) (i j : Nat) :
    rawSim docs i j = rawSim docs j i := by
  unfold rawSim
  exact cosineSimilarity_comm _ _

/-! ## Similarity matrix (`create_similarity_matrix`, lines 211-287)

The nested loops at lines 262-276 fill an `n × n` matrix: the diagonal cell is
`1.0`, every other cell is `cosine_similarity(doc_vectors[i], doc_vectors[j])`
(computed afresh for each of the two mirror cells), and every cell is stored as
`round(similarity, 4)`. -/

/-- `SimilarityComputer.create_similarity_matrix`: the matrix and the ordered
document-name list. -/
noncomputable def createSimilarityMatrix (docs : List FeatDoc) :
    List (List ℝ) × List String :=
  ((List.range docs.length).map (fun i =>
      (List.range docs.length).map (fun j =>
        round4 (if i = j then 1 else rawSim docs i j))),
    docs.map (fun d => d.filename))

lemma getD_map_range {δ : Type} (f : Nat → δ) (d : δ) {i n : Nat} (h : i < n) :
    (((List.range n).map f).getD i d) = f i := by
  rw [List.getD_eq_getElem?_getD, List.getElem?_map, List.getElem?_range h]
  rfl

lemma matrixCell (docs : List FeatDoc) {i j : Nat} (hi : i < docs.length)
    (hj : j < docs.length) :
    (((createSimilarityMatrix docs).1.getD i []).getD j 0) =
      round4 (if i = j then 1 else rawSim docs i j) := by
  unfold createSimilarityMatrix
  rw [getD_map_range _ _ hi, getD_map_range _ _ hj]

/-- C4: `build_matrix` returns a square matrix of dimension `n = #docs` whose
diagonal entries are exactly `1.0`, which is symmetric, and whose off-diagonal
cells are the (rounded) cosine similarities; the second component is the
ordered document-name list. -/
theorem C4_similarity_matrix_spec (docs : List FeatDoc) :
    (createSimilarityMatrix docs).1.length = docs.length ∧
    (∀ i, i < docs.length →
      ((createSimilarityMatrix docs).1.getD i []).length = docs.length) ∧
    (∀ i, i < docs.length →
      (((createSimilarityMatrix docs).1.getD i []).getD i 0) = 1) ∧
    (∀ i j, i < docs.length → j < docs.length →
      (((createSimilarityMatrix docs).1.getD i []).getD j 0) =
        (((createSimilarityMatrix docs).1.getD j []).getD i 0)) ∧
    (∀ i j, i < docs.length → j < docs.length → i ≠ j →
      (((createSimilarityMatrix docs).1.getD i []).getD j 0) =
        round4 (rawSim docs i j)) ∧
    (createSimilarityMatrix docs).2 = docs.map (fun d => d.filename) := by
  refine ⟨?_, ?_, ?_, ?_, ?_, rfl⟩
  · unfold createSimilarityMatrix
    rw [List.length_map, List.length_range]
  · intro i hi
    unfold createSimilarityMatrix
    rw [getD_map_range _ _ hi, List.length_map, List.length_range]
  · intro i hi
    rw [matrixCell docs hi hi, if_pos rfl, round4_one]
  · intro i j hi hj
    rw [matrixCell docs hi hj, matrixCell docs hj hi]
    by_cases hij : i = j
    · subst hij
      rfl
    · rw [if_neg hij, if_neg (fun h => hij h.symm), rawSim_comm]
  · intro i j hi hj hij
    rw [matrixCell docs hi hj, if_neg hij]

/-- Witness for C4 at the concrete two-document input: dimension, diagonal and
symmetry at the corner cells. -/
theorem C4_similarity_matrix_spec_witness :
    (0 < twoDocs.length ∧ 1 < twoDocs.length) ∧
    ((createSimilarityMatrix twoDocs).1.length = twoDocs.length ∧
      (((createSimilarityMatrix twoDocs).1.getD 0 []).getD 0 0) = 1 ∧
      (((createSimilarityMatrix twoDocs).1.getD 0 []).getD 1 0) =
        (((createSimilarityMatrix twoDocs).1.getD 1 []).getD 0 0)) :=
  ⟨⟨by simp [twoDocs], by simp [twoDocs]⟩,
    (C4_similarity_matrix_spec twoDocs).1,
    (C4_similarity_matrix_spec twoDocs).2.2.1 0 (by simp [twoDocs]),
    (C4_similarity_matrix_spec twoDocs).2.2.2.1 0 1 (by simp [twoDocs])
      (by simp [twoDocs])⟩

/-! ## Statistics (`compute_statistics`, lines 289-353) -/

/-- Fields of `AnalysisStatistics` touched by the claims (the formatted
`processing_time` string carries no numeric content and is omitted). -/
structure AnalysisStatistics where
  totalDocuments : Nat
  totalComparisons : Nat
  flaggedPairs : Nat
  avgSimilarity : ℝ
  maxSimilarity : ℝ
  minSimilarity : ℝ

/-- `np.max` over a nonempty list of scores (the empty case is unreachable:
the caller returns early when `similarities` is empty). -/
def listMax : List ℝ → ℝ
  | [] => 0
  | x :: xs => xs.foldl max x

/-- `np.min` over a nonempty list of scores. -/
def listMin : List ℝ → ℝ
  | [] => 0
  | x :: xs => xs.foldl min x

/-- `SimilarityComputer.compute_statistics`: all-zero statistics for an empty
pair list, otherwise `avg/max/min` of the stored similarity scores (each
rounded to 4 decimals) and `flagged_pairs = count of flagged pairs`. -/
noncomputable def computeStatistics (similarities : List SimPair)
    (totalDocuments : Nat) : AnalysisStatistics :=
  if similarities.isEmpty then
    { totalDocuments := totalDocuments, totalComparisons := 0, flaggedPairs := 0,
      avgSimilarity := 0, maxSimilarity := 0, minSimilarity := 0 }
  else
    { totalDocuments := totalDocuments
      totalComparisons := similarities.length
      flaggedPairs := similarities.countP (fun p => p.flagged)
      avgSimilarity := round4 ((similarities.map (fun p => p.similarity)).sum /
        (similarities.map (fun p => p.similarity)).length)
      maxSimilarity := round4 (listMax (similarities.map (fun p => p.similarity)))
      minSimilarity := round4 (listMin (similarities.map (fun p => p.similarity))) }

lemma le_foldl_max (l : List ℝ) (a : ℝ) : a ≤ l.foldl max a := by
  induction l generalizing a with
  | nil => exact le_refl a
  | cons x xs ih => exact le_trans (le_max_left a x) (ih (max a x))

lemma mem_le_foldl_max {x : ℝ} {l : List ℝ} (a : ℝ) (h : x ∈ l) :
    x ≤ l.foldl max a := by
  induction l generalizing a with
  | nil => cases h
  | cons y ys ih =>
    rcases List.mem_cons.mp h with rfl | h1
    · exact le_trans (le_max_right a x) (le_foldl_max ys (max a x))
    · exact ih (max a y) h1

lemma mem_le_listMax {x : ℝ} {l : List ℝ} (h : x ∈ l) : x ≤ listMax l := by
  cases l with
  | nil => cases h
  | cons y ys =>
    rcases List.mem_cons.mp h with rfl | h1
    · exact le_foldl_max ys x
    · exact mem_le_foldl_max y h1

lemma foldl_min_le (l : List ℝ) (a : ℝ) : l.foldl min a ≤ a := by
  induction l generalizing a with
  | nil => exact le_refl a
  | cons x xs ih => exact le_trans (ih (min a x)) (min_le_left a x)

lemma foldl_min_le_mem {x : ℝ} {l : List ℝ} (a : ℝ) (h : x ∈ l) :
    l.foldl min a ≤ x := by
  induction l generalizing a with
  | nil => cases h
  | cons y ys ih =>
    rcases List.mem_cons.mp h with rfl | h1
    · exact le_trans (foldl_min_le ys (min a x)) (min_le_right a x)
    · exact ih (min a y) h1

lemma listMin_le_mem {x : ℝ} {l : List ℝ} (h : x ∈ l) : listMin l ≤ x := by
  cases l with
  | nil => cases h
  | cons y ys =>
    rcases List.mem_cons.mp h with rfl | h1
    · exact foldl_min_le ys x
    · exact foldl_min_le_mem y h1

lemma mean_le_listMax {l : List ℝ} (h : l ≠ []) :
    l.sum / l.length ≤ listMax l := by
  have hl : 0 < (l.length : ℝ) := by
    have := List.length_pos.mpr h
    exact_mod_cast this
  rw [div_le_iff₀ hl]
  have := List.sum_le_card_nsmul l (listMax l) (fun x hx => mem_le_listMax hx)
  rw [nsmul_eq_mul] at this
  linarith

lemma listMin_le_mean {l : List ℝ} (h : l ≠ []) :
    listMin l ≤ l.sum / l.length := by
  have hl : 0 < (l.length : ℝ) := by
    have := List.length_pos.mpr h
    exact_mod_cast this
  rw [le_div_iff₀ hl]
  have := List.card_nsmul_le_sum l (listMin l) (fun x hx => listMin_le_mem hx)
  rw [nsmul_eq_mul] at this
  linarith

/-- C8: `compute_statistics` returns `flagged_pairs` equal to the count of
pairs whose `flagged` field is true, and `avg/max/min` computed over the
similarity values of exactly the pairs passed in; for a non-empty pair list
`min ≤ avg ≤ max`, and for an empty list all numeric fields are `0.0`. -/
theorem C8_statistics_spec (pairs : List SimPair) (td : Nat) :
    (computeStatistics pairs td).flaggedPairs = pairs.countP (fun p => p.flagged) ∧
    (pairs ≠ [] →
      (computeStatistics pairs td).avgSimilarity =
        round4 ((pairs.map (fun p => p.similarity)).sum / pairs.length) ∧
      (computeStatistics pairs td).maxSimilarity =
        round4 (listMax (pairs.map (fun p => p.similarity))) ∧
      (computeStatistics pairs td).minSimilarity =
        round4 (listMin (pairs.map (fun p => p.similarity))) ∧
      (computeStatistics pairs td).minSimilarity ≤
        (computeStatistics pairs td).avgSimilarity ∧
      (computeStatistics pairs td).avgSimilarity ≤
        (computeStatistics pairs td).maxSimilarity) ∧
    (pairs = [] →
      (computeStatistics pairs td).flaggedPairs = 0 ∧
      (computeStatistics pairs td).avgSimilarity = 0 ∧
      (computeStatistics pairs td).maxSimilarity = 0 ∧
      (computeStatistics pairs td).minSimilarity = 0 ∧
      (computeStatistics pairs td).totalComparisons = 0) := by
  by_cases hp : pairs = []
  · subst hp
    refine ⟨rfl, fun h => absurd rfl h, fun _ => ?_⟩
    unfold computeStatistics
    norm_num
  · have hne : ¬ (pairs.isEmpty = true) := by
      cases pairs with
      | nil => exact absurd rfl hp
      | cons x xs => simp
    have hmne : pairs.map (fun p => p.similarity) ≠ [] := by
      intro h
      exact hp (List.map_eq_nil_iff.mp h)
    constructor
    · unfold computeStatistics
      rw [if_neg hne]
    constructor
    · intro _
      unfold computeStatistics
      rw [if_neg hne]
      refine ⟨by rw [List.length_map], rfl, rfl, ?_, ?_⟩
      · exact round4_mono (listMin_le_mean hmne)
      · exact round4_mono (mean_le_listMax hmne)
    · intro h
      exact absurd h hp

/-- Two concrete similarity pairs used to witness C8. -/
noncomputable def statsPairs : List SimPair :=
  [{ doc1Id := "a", doc1Name := "a.txt", doc2Id := "b", doc2Name := "b.txt",
     similarity := 1/2, flagged := true },
   { doc1Id := "a", doc1Name := "a.txt", doc2Id := "c", doc2Name := "c.txt",
     similarity := 1/4, flagged := false }]

/-- Witness for C8: the non-empty branch at a concrete pair list and the empty
branch at `[]`. -/
theorem C8_statistics_spec_witness :
    (statsPairs ≠ [] ∧
      (computeStatistics statsPairs 3).minSimilarity ≤
        (computeStatistics statsPairs 3).avgSimilarity ∧
      (computeStatistics statsPairs 3).avgSimilarity ≤
        (computeStatistics statsPairs 3).maxSimilarity) ∧
    (computeStatistics ([] : List SimPair) 0).avgSimilarity = 0 :=
  ⟨⟨by simp [statsPairs], ((C8_statistics_spec statsPairs 3).2.1
      (by simp [statsPairs])).2.2.2.1,
    ((C8_statistics_spec statsPairs 3).2.1 (by simp [statsPairs])).2.2.2.2⟩,
    ((C8_statistics_spec ([] : List SimPair) 0).2.2 rfl).2.1⟩

/-! ## Text preprocessing (`DocumentProcessor.preprocess_text`, lines 213-280)

The pipeline on the `content` column: `lower`, then
`regexp_replace(r'[^a-z0-9\s]', ' ')` (each offending character becomes one
space), then `regexp_replace(r'\s+', ' ')` (every whitespace run becomes one
space), then `trim`; finally rows whose cleaned content is empty are filtered
out, and a `SparkException` is raised only when no row survives. -/

/-- Java regex whitespace class `\s` = space, tab, newline, vertical tab, form
feed, carriage return. -/
def isSpaceChar (c : Char) : Bool :=
  c = ' ' || c = '\t' || c = '\n' || c = '\x0b' || c = '\x0c' || c = '\r'

/-- One character of `regexp_replace(col, r'[^a-z0-9\s]', ' ')` (applied after
lowercasing): keep lowercase letters, digits and whitespace, replace everything
else by a single space. -/
def replaceNonAlnum (c : Char) : Char :=
  if ('a' ≤ c ∧ c ≤ 'z') ∨ ('0' ≤ c ∧ c ≤ '9') ∨ isSpaceChar c then c else ' '

/-- `regexp_replace(col, r'\s+', ' ')` : every maximal whitespace run becomes a
single space. -/
def squeezeSpaces : List Char → List Char
  | [] => []
  | [c] => [if isSpaceChar c then ' ' else c]
  | a :: b :: rest =>
    if isSpaceChar a && isSpaceChar b then squeezeSpaces (b :: rest)
    else (if isSpaceChar a then ' ' else a) :: squeezeSpaces (b :: rest)

/-- `trim` : drop leading and trailing spaces (after `squeezeSpaces` every
whitespace character is a plain space). -/
def trimSpaces (l : List Char) : List Char :=
  ((l.dropWhile (fun c => c = ' ')).reverse.dropWhile (fun c => c = ' ')).reverse

/-- The full cleaning of one document's content (steps at lines 239-254).
`Char.toLower` agrees with the lowercasing used by Spark on ASCII; characters
outside ASCII are replaced by a space right afterwards either way. -/
def cleanContent (s : String) : String :=
  String.mk (trimSpaces (squeezeSpaces ((s.data.map Char.toLower).map replaceNonAlnum)))

/-- A raw document row: `doc_id`, `filename`, `content`. -/
structure RawDoc where
  docId : String
  filename : String
  content : String
  deriving DecidableEq, Repr

/-- The cleaning applied to one row (other columns unchanged). -/
def cleanDoc (d : RawDoc) : RawDoc := { d with content := cleanContent d.content }

/-- `DocumentProcessor.preprocess_text`: clean every row, silently drop rows
whose cleaned content is empty (lines 256-264), and raise
`SparkException("All documents are empty after preprocessing")` only when no
row survives (lines 266-267). -/
def preprocessDocs (docs : List RawDoc) : Except AppError (List RawDoc) :=
  if ((docs.map cleanDoc).filter (fun d => d.content.length > 0)).length = 0 then
    .error (sparkError "All documents are empty after preprocessing")
  else
    .ok ((docs.map cleanDoc).filter (fun d => d.content.length > 0))

/-- The three-document input refuting C5: the third document cleans to the
empty string. -/
def exRawDocs : List RawDoc :=
  [{ docId := "d1", filename := "f1.txt", content := "Hello" },
   { docId := "d2", filename := "f2.txt", content := "world" },
   { docId := "d3", filename := "f3.txt", content := "!!!" }]

/-- Counterexample for C5: a document whose text becomes empty after cleaning
does not make normalization fail; `preprocess_text` succeeds and silently
drops it (no error of any kind is raised while other documents survive). -/
theorem C5_counterexample :
    cleanContent "!!!" = "" ∧
    preprocessDocs exRawDocs =
      .ok ([{ docId := "d1", filename := "f1.txt", content := "hello" },
            { docId := "d2", filename := "f2.txt", content := "world" }] : List RawDoc) ∧
    (∀ d ∈ ([{ docId := "d1", filename := "f1.txt", content := "hello" },
              { docId := "d2", filename := "f2.txt", content := "world" }] : List RawDoc),
      d.docId ≠ "d3") := by
  refine ⟨by decide, by rfl, by decide⟩

lemma filter_clean_eq_nil (docs : List RawDoc) :
    ((docs.map cleanDoc).filter (fun d => d.content.length > 0)) = [] ↔
      ∀ d ∈ docs, cleanContent d.content = "" := by
  rw [List.filter_eq_nil_iff]
  constructor
  · intro h d hd
    have := h (cleanDoc d) (List.mem_map.mpr ⟨d, hd, rfl⟩)
    simp only [cleanDoc, decide_eq_true_eq, not_lt, Nat.le_zero] at this
    cases hcc : cleanContent d.content with
    | mk data =>
      cases data with
      | nil => rfl
      | cons c cs =>
        rw [hcc] at this
        simp [String.length] at this
  · intro h a ha
    obtain ⟨d, hd, rfl⟩ := List.mem_map.mp ha
    simp only [cleanDoc, h d hd, decide_eq_true_eq, not_lt]
    rfl

/-- C5 amended: `preprocess_text` fails (with
`SparkException("All documents are empty after preprocessing")`, kind
`SPARK_ERROR`) iff every document becomes empty after cleaning; otherwise it
succeeds, returning exactly the cleaned documents with non-empty content —
documents that clean to empty are silently dropped, and a job containing such
a document does not fail on their account. -/
theorem C5_amended (docs : List RawDoc) :
    ((∀ d ∈ docs, cleanContent d.content = "") →
      preprocessDocs docs =
        .error (sparkError "All documents are empty after preprocessing")) ∧
    ((∃ d ∈ docs, cleanContent d.content ≠ "") →
      preprocessDocs docs =
        .ok ((docs.map cleanDoc).filter (fun d => d.content.length > 0)) ∧
      ∀ d ∈ (docs.map cleanDoc).filter (fun d => d.content.length > 0),
        d.content ≠ "") := by
  constructor
  · intro h
    unfold preprocessDocs
    rw [if_pos]
    rw [List.length_eq_zero, filter_clean_eq_nil]
    exact h
  · rintro ⟨d, hd, hne⟩
    have hkept : ¬ (((docs.map cleanDoc).filter (fun d => d.content.length > 0)).length = 0) := by
      rw [List.length_eq_zero, filter_clean_eq_nil]
      intro h
      exact hne (h d hd)
    constructor
    · unfold preprocessDocs
      rw [if_neg hkept]
    · intro q hq
      have := List.of_mem_filter hq
      simp only [decide_eq_true_eq] at this
      intro hq0
      rw [hq0] at this
      simp [String.length] at this

/-- A single raw document cleaning to empty, exercising the failure branch of
the amended C5. -/
def emptyishDocs : List RawDoc :=
  [{ docId := "e1", filename := "g.txt", content := "???" }]

/-- Witness for the amended C5: the success branch at the three-document input
and the failure branch at an input whose only document cleans to empty. -/
theorem C5_amended_witness :
    ((∃ d ∈ exRawDocs, cleanContent d.content ≠ "") ∧
      preprocessDocs exRawDocs =
        .ok ((exRawDocs.map cleanDoc).filter (fun d => d.content.length > 0)) ∧
      ∀ d ∈ (exRawDocs.map cleanDoc).filter (fun d => d.content.length > 0),
        d.content ≠ "") ∧
    ((∀ d ∈ emptyishDocs, cleanContent d.content = "") ∧
      preprocessDocs emptyishDocs =
        .error (sparkError "All documents are empty after preprocessing")) :=
  ⟨⟨by decide, ((C5_amended exRawDocs).2 (by decide)).1,
      ((C5_amended exRawDocs).2 (by decide)).2⟩,
    ⟨by decide, (C5_amended emptyishDocs).1 (by decide)⟩⟩

/-! ## TF-IDF weighting (C1)

`build_tfidf_pipeline` (`document_processor.py`, lines 282-336) configures
Apache Spark's `IDF` estimator with `minDocFreq = 1`; the code comment at line
319 states the intent: "ensure IDF doesn't become 0 for terms in all docs".
The repository itself contains no IDF arithmetic, so the estimator is modelled
from the wrapped library's documented behaviour: Spark ML's `IDF` computes
`idf(t) = ln((N + 1) / (df(t) + 1))` (smoothed, with no `+ 1` term) and forces
the weight to `0` for terms with `df(t) < minDocFreq`. -/

/-- Spark ML `IDF` with a `minDocFreq` parameter, for a corpus of `n`
documents and a term of document frequency `df` (modelled from the library's
documented formula, see section comment). -/
noncomputable def sparkIdf (minDocFreq n df : Nat) : ℝ :=
  if df < minDocFreq then 0 else Real.log (((n : ℝ) + 1) / ((df : ℝ) + 1))

/-- The IDF actually used by the repository: `sparkIdf` at `minDocFreq = 1`
(`build_tfidf_pipeline`, lines 320-324). -/
noncomputable def repoIdf (n df : Nat) : ℝ := sparkIdf 1 n df

/-- The specification's formula:
`idf(t) = ln((N + 1) / (df(t) + 1)) + 1` (scikit-learn style smoothing, which
indeed guarantees `idf > 0`). -/
noncomputable def specIdf (n df : Nat) : ℝ :=
  Real.log (((n : ℝ) + 1) / ((df : ℝ) + 1)) + 1

/-- C1 (code bug): for a term present in every document of the corpus the
configured IDF stage yields exactly `0` — for instance `N = df = 2` — whereas
the specified formula yields `ln(1) + 1 = 1 > 0`.  In general `repoIdf n n = 0`
for every corpus size `n`: the `+ 1` smoothing term of the claim is absent
from the code, and the code comment's stated goal ("ensure IDF doesn't become
0 for terms in all docs") is not met by `minDocFreq = 1`. -/
theorem C1_idf_code_bug :
    repoIdf 2 2 = 0 ∧ ¬ (0 < repoIdf 2 2) ∧ specIdf 2 2 = 1 ∧ 0 < specIdf 2 2 ∧
    (∀ n : Nat, repoIdf n n = 0) ∧
    repoIdf 2 2 ≠ specIdf 2 2 := by
  have hrepo : ∀ n : Nat, repoIdf n n = 0 := by
    intro n
    unfold repoIdf sparkIdf
    by_cases h : n < 1
    · rw [if_pos h]
    · rw [if_neg h, div_self (by positivity), Real.log_one]
  have hspec : specIdf 2 2 = 1 := by
    unfold specIdf
    norm_num [Real.log_one]
  refine ⟨hrepo 2, ?_, hspec, ?_, hrepo, ?_⟩
  · rw [hrepo 2]
    exact lt_irrefl 0
  · rw [hspec]
    norm_num
  · rw [hrepo 2, hspec]
    norm_num

/-! ## Job orchestration (`AnalysisService`, `analysis_service.py`)

The job registry `self._jobs` is modelled as an association list from job id to
job; Python dict insertion appends at the end.  Config floats are modelled as
rationals. -/

/-- `JobStatus` (`schemas.py`, lines 12-17). -/
inductive JobStatus where
  | pending
  | processing
  | completed
  | failed
  deriving DecidableEq, Repr

/-- The fields of an `AnalysisResult` job record that the claims mention. -/
structure Job where
  status : JobStatus
  totalDocuments : Nat
  errorMessage : Option String
  createdAt : Nat
  deriving DecidableEq, Repr

/-- The orchestrator's job registry `self._jobs`. -/
abbrev Registry := List (String × Job)

/-- Resolution of the document count in `create_job` (lines 66-70): Python
truthiness means an empty `document_ids` list also falls back to the document
service's count. -/
def resolvedDocCount (documentIds : Option (List String)) (serviceCount : Nat) : Nat :=
  match documentIds with
  | some ids => if ids.isEmpty then serviceCount else ids.length
  | none => serviceCount

/-- `AnalysisService.create_job` (lines 45-94): validate the threshold against
the configured bounds (`ValidationHelper.validate_threshold`, raising
`INVALID_THRESHOLD`), resolve the document count, validate it
(`validate_document_count`, raising `INSUFFICIENT_DOCUMENTS` when `< 2`), and
only then insert a new `Pending` job and return its id.  The static messages
stand in for the interpolated ones. -/
def createJob (r : Registry) (newId : String) (createdAt : Nat)
    (documentIds : Option (List String)) (serviceCount : Nat)
    (threshold minThreshold maxThreshold : ℚ) : Registry × Except AppError String :=
  if threshold < minThreshold then
    (r, .error (invalidThresholdError "Threshold too low"))
  else if maxThreshold < threshold then
    (r, .error (invalidThresholdError "Threshold too high"))
  else if resolvedDocCount documentIds serviceCount < 2 then
    (r, .error (insufficientDocumentsError "Need at least 2 documents for analysis"))
  else
    (r ++ [(newId,
      { status := .pending,
        totalDocuments := resolvedDocCount documentIds serviceCount,
        errorMessage := none, createdAt := createdAt })],
      .ok newId)

/-- `AnalysisService.list_jobs` (lines 249-259): all jobs sorted by creation
time, newest first (stable Python sort). -/
def listJobs (r : Registry) : List Job :=
  sortByKeyDesc (fun j => j.createdAt) (r.map (fun p => p.2))

/-- C7: job creation validates the threshold against the configured
`[min, max]` bounds (failing with the `INVALID_THRESHOLD` kind when out of
range) and the resolved document count (failing with `INSUFFICIENT_DOCUMENTS`
when `< 2`); on either validation failure no `job_id` is returned and the
registry — hence `list()` — is unchanged; on success a `Pending` job is
appended and its id returned. -/
theorem C7_create_job_validation (r : Registry) (id : String) (ca : Nat)
    (ids : Option (List String)) (svc : Nat) (t minT maxT : ℚ) :
    (t < minT ∨ maxT < t →
      (createJob r id ca ids svc t minT maxT).1 = r ∧
      (∃ e, (createJob r id ca ids svc t minT maxT).2 = .error e ∧
        e.errorCode = "INVALID_THRESHOLD") ∧
      listJobs (createJob r id ca ids svc t minT maxT).1 = listJobs r) ∧
    (minT ≤ t → t ≤ maxT → resolvedDocCount ids svc < 2 →
      (createJob r id ca ids svc t minT maxT).1 = r ∧
      (∃ e, (createJob r id ca ids svc t minT maxT).2 = .error e ∧
        e.errorCode = "INSUFFICIENT_DOCUMENTS") ∧
      listJobs (createJob r id ca ids svc t minT maxT).1 = listJobs r) ∧
    (minT ≤ t → t ≤ maxT → 2 ≤ resolvedDocCount ids svc →
      (createJob r id ca ids svc t minT maxT).2 = .ok id ∧
      (createJob r id ca ids svc t minT maxT).1 =
        r ++ [(id, { status := .pending, totalDocuments := resolvedDocCount ids svc,
                     errorMessage := none, createdAt := ca })]) := by
  refine ⟨?_, ?_, ?_⟩
  · intro h
    unfold createJob
    by_cases h1 : t < minT
    · rw [if_pos h1]
      exact ⟨rfl, ⟨_, rfl, rfl⟩, rfl⟩
    · rcases h with h | h
      · exact absurd h h1
      · rw [if_neg h1, if_pos h]
        exact ⟨rfl, ⟨_, rfl, rfl⟩, rfl⟩
  · intro h1 h2 h3
    unfold createJob
    rw [if_neg (not_lt.mpr h1), if_neg (not_lt.mpr h2), if_pos h3]
    exact ⟨rfl, ⟨_, rfl, rfl⟩, rfl⟩
  · intro h1 h2 h3
    unfold createJob
    rw [if_neg (not_lt.mpr h1), if_neg (not_lt.mpr h2), if_neg (not_lt.mpr h3)]
    exact ⟨rfl, rfl⟩

/-- Witness for C7: out-of-range threshold `1.5` with bounds `[0.5, 1.0]`,
then an in-range threshold with only one document, then a successful creation. -/
theorem C7_create_job_validation_witness :
    (((3/2 : ℚ) < 1/2 ∨ (1 : ℚ) < 3/2) ∧
      (createJob [] "j1" 0 none 5 (3/2) (1/2) 1).1 = [] ∧
      (∃ e, (createJob [] "j1" 0 none 5 (3/2) (1/2) 1).2 = .error e ∧
        e.errorCode = "INVALID_THRESHOLD") ∧
      listJobs (createJob [] "j1" 0 none 5 (3/2) (1/2) 1).1 = listJobs []) ∧
    (((1/2 : ℚ) ≤ 7/10 ∧ (7/10 : ℚ) ≤ 1 ∧ resolvedDocCount none 1 < 2) ∧
      (createJob [] "j2" 0 none 1 (7/10) (1/2) 1).1 = [] ∧
      (∃ e, (createJob [] "j2" 0 none 1 (7/10) (1/2) 1).2 = .error e ∧
        e.errorCode = "INSUFFICIENT_DOCUMENTS") ∧
      listJobs (createJob [] "j2" 0 none 1 (7/10) (1/2) 1).1 = listJobs []) ∧
    (((1/2 : ℚ) ≤ 7/10 ∧ (7/10 : ℚ) ≤ 1 ∧ 2 ≤ resolvedDocCount none 3) ∧
      (createJob [] "j3" 0 none 3 (7/10) (1/2) 1).2 = .ok "j3" ∧
      (createJob [] "j3" 0 none 3 (7/10) (1/2) 1).1 =
        [] ++ [("j3", { status := .pending, totalDocuments := resolvedDocCount none 3,
                        errorMessage := none, createdAt := 0 })]) :=
  ⟨⟨Or.inr (by norm_num),
      (C7_create_job_validation [] "j1" 0 none 5 (3/2) (1/2) 1).1 (Or.inr (by norm_num))⟩,
    ⟨⟨by norm_num, by norm_num, by decide⟩,
      (C7_create_job_validation [] "j2" 0 none 1 (7/10) (1/2) 1).2.1
        (by norm_num) (by norm_num) (by decide)⟩,
    ⟨⟨by norm_num, by norm_num, by decide⟩,
      (C7_create_job_validation [] "j3" 0 none 3 (7/10) (1/2) 1).2.2
        (by norm_num) (by norm_num) (by decide)⟩⟩

/-! ## Job state machine (C9)

`_update_job_status` (lines 117-130) is the single mutation path; the status
writes actually issued are: `PENDING` at creation, then — once per job, since
`analyze_documents` schedules `_perform_analysis` exactly once for each
freshly generated job id — `PROCESSING` followed by exactly one of `COMPLETED`
or `FAILED`.  `get_job_result` and `list_jobs` never write. -/

/-- `_update_job_status`-style point update: apply `f` to the job stored under
`id` when present (`if job_id in self._jobs`), otherwise do nothing. -/
def setJob (r : Registry) (id : String) (f : Job → Job) : Registry :=
  r.map (fun p => if p.1 = id then (p.1, f p.2) else p)

/-- `_update_job_status(job_id, status)` with no extra fields. -/
def updateStatus (r : Registry) (id : String) (st : JobStatus) : Registry :=
  setJob r id (fun j => { j with status := st })

/-- The registry writes of `_perform_analysis(job_id, ...)` (lines 132-215):
first `PROCESSING`; then `COMPLETED` on success, or `FAILED` together with the
error message on any exception.  The pipeline outcome (everything between the
two writes) enters as the `outcome` parameter. -/
def performAnalysis (r : Registry) (id : String) (outcome : Except String Unit) : Registry :=
  match outcome with
  | .ok _ => updateStatus (updateStatus r id .processing) id .completed
  | .error msg =>
    setJob (updateStatus r id .processing) id
      (fun j => { j with status := .failed, errorMessage := some msg })

/-- Lookup of a job by id (first match, as in a dict). -/
def lookupJob (r : Registry) (id : String) : Option Job :=
  (r.find? (fun p => p.1 = id)).map (fun p => p.2)

/-- The status recorded for `id`, if any. -/
def getStatus (r : Registry) (id : String) : Option JobStatus :=
  (lookupJob r id).map (fun j => j.status)

/-- Terminal job states. -/
def isTerminal (s : JobStatus) : Prop := s = .completed ∨ s = .failed

instance (s : JobStatus) : Decidable (isTerminal s) := by
  unfold isTerminal
  infer_instance

/-- The final status written by `_perform_analysis` for a given outcome. -/
def analysisOutcomeStatus : Except String Unit → JobStatus
  | .ok _ => .completed
  | .error _ => .failed

/-- The specification's state machine
`Pending → Processing → Completed | Failed` (the refinement target the code is
compared against). -/
inductive SpecStep : JobStatus → JobStatus → Prop where
  | toProcessing : SpecStep .pending .processing
  | toCompleted : SpecStep .processing .completed
  | toFailed : SpecStep .processing .failed

/-- The orchestrator operations named by claim C9: job creation, the
background execution of one job, and the two read-only operations. -/
inductive OrchestratorOp where
  | create (id : String) (ca : Nat) (ids : Option (List String)) (svc : Nat)
      (t minT maxT : ℚ)
  | perform (id : String) (outcome : Except String Unit)
  | fetch (id : String)
  | enumerate

/-- Effect of one orchestrator operation on the registry (`fetch` models
`get_job_result`, `enumerate` models `list_jobs`; both are read-only). -/
def runOp (r : Registry) : OrchestratorOp → Registry
  | .create id ca ids svc t minT maxT => (createJob r id ca ids svc t minT maxT).1
  | .perform id outcome => performAnalysis r id outcome
  | .fetch _ => r
  | .enumerate => r

/-- Effect of an operation sequence. -/
def runOps (r : Registry) (ops : List OrchestratorOp) : Registry := ops.foldl runOp r

/-- Well-formed operation sequences: created ids are fresh (the orchestrator
draws fresh UUIDs) and each job's background execution runs at most once (the
orchestrator schedules `_perform_analysis` exactly once per created job);
`performed` accumulates the ids already executed. -/
inductive WFOps : Registry → List String → List OrchestratorOp → Prop where
  | nil (r : Registry) (performed : List String) : WFOps r performed []
  | create {r : Registry} {performed : List String} {id : String} {ca : Nat}
      {ids : Option (List String)} {svc : Nat} {t minT maxT : ℚ}
      {ops : List OrchestratorOp}
      (hfresh : id ∉ r.map Prod.fst)
      (hrest : WFOps (runOp r (.create id ca ids svc t minT maxT)) performed ops) :
      WFOps r performed (.create id ca ids svc t minT maxT :: ops)
  | perform {r : Registry} {performed : List String} {id : String}
      {outcome : Except String Unit} {ops : List OrchestratorOp}
      (honce : id ∉ performed)
      (hrest : WFOps (runOp r (.perform id outcome)) (id :: performed) ops) :
      WFOps r performed (.perform id outcome :: ops)
  | fetch {r : Registry} {performed : List String} {id : String}
      {ops : List OrchestratorOp}
      (hrest : WFOps r performed ops) : WFOps r performed (.fetch id :: ops)
  | enumerate {r : Registry} {performed : List String} {ops : List OrchestratorOp}
      (hrest : WFOps r performed ops) : WFOps r performed (.enumerate :: ops)

/-- Registry invariant tying terminal statuses to already-executed jobs: a job
can only be terminal because its (unique) background execution already ran. -/
def registryInv (r : Registry) (performed : List String) : Prop :=
  ∀ p ∈ r, isTerminal p.2.status → p.1 ∈ performed

instance (r : Registry) (performed : List String) :
    Decidable (registryInv r performed) := by
  unfold registryInv
  infer_instance

lemma lookupJob_mem {r : Registry} {id : String} {j : Job}
    (h : lookupJob r id = some j) : (id, j) ∈ r := by
  induction r with
  | nil => cases h
  | cons p ps ih =>
    unfold lookupJob at h
    by_cases hp : p.1 = id
    · rw [List.find?_cons_of_pos ps (by simp [hp])] at h
      simp only [Option.map_some'] at h
      obtain rfl := (Option.some.injEq .. ▸ h)
      have : p = (id, p.2) := by
        rw [← hp]
      rw [this] at *
      exact List.mem_cons_self _ _
    · rw [List.find?_cons_of_neg ps (by simp [hp])] at h
      exact List.mem_cons_of_mem p (ih h)

lemma lookupJob_mem_keys {r : Registry} {id : String} {j : Job}
    (h : lookupJob r id = some j) : id ∈ r.map Prod.fst :=
  List.mem_map.mpr ⟨(id, j), lookupJob_mem h, rfl⟩

lemma lookupJob_setJob_ne (r : Registry) {id id' : String} (f : Job → Job)
    (h : id ≠ id') : lookupJob (setJob r id' f) id = lookupJob r id := by
  induction r with
  | nil => rfl
  | cons p ps ih =>
    unfold setJob lookupJob at *
    rw [List.map_cons]
    by_cases hp : p.1 = id
    · have hp' : ¬ (p.1 = id') := fun hc => h (hp ▸ hc ▸ rfl)
      rw [if_neg hp', List.find?_cons_of_pos _ (by simp [hp]),
        List.find?_cons_of_pos _ (by simp [hp])]
    · by_cases hp' : p.1 = id'
      · rw [if_pos hp', List.find?_cons_of_neg _ (by simp [hp]),
          List.find?_cons_of_neg _ (by simp [hp])]
        exact ih
      · rw [if_neg hp', List.find?_cons_of_neg _ (by simp [hp]),
          List.find?_cons_of_neg _ (by simp [hp])]
        exact ih

lemma lookupJob_setJob_self {r : Registry} {id : String} {j : Job} (f : Job → Job)
    (h : lookupJob r id = some j) : lookupJob (setJob r id f) id = some (f j) := by
  induction r with
  | nil => cases h
  | cons p ps ih =>
    unfold setJob lookupJob at *
    rw [List.map_cons]
    by_cases hp : p.1 = id
    · rw [List.find?_cons_of_pos ps (by simp [hp])] at h
      simp only [Option.map_some'] at h
      obtain rfl := (Option.some.injEq .. ▸ h)
      rw [if_pos hp, List.find?_cons_of_pos _ (by simp [hp])]
      rfl
    · rw [List.find?_cons_of_neg ps (by simp [hp])] at h
      rw [if_neg hp, List.find?_cons_of_neg _ (by simp [hp])]
      exact ih h

lemma getStatus_setJob_ne (r : Registry) {id id' : String} (f : Job → Job)
    (h : id ≠ id') : getStatus (setJob r id' f) id = getStatus r id := by
  unfold getStatus
  rw [lookupJob_setJob_ne r f h]

lemma getStatus_performAnalysis_ne (r : Registry) {id id' : String}
    (o : Except String Unit) (h : id ≠ id') :
    getStatus (performAnalysis r id' o) id = getStatus r id := by
  unfold performAnalysis
  cases o with
  | ok _ =>
    unfold updateStatus
    rw [getStatus_setJob_ne _ _ h, getStatus_setJob_ne _ _ h]
  | error msg =>
    unfold updateStatus
    rw [getStatus_setJob_ne _ _ h, getStatus_setJob_ne _ _ h]

lemma lookupJob_append_sing (r : Registry) {id id' : String} (j' : Job)
    (h : id ≠ id') : lookupJob (r ++ [(id', j')]) id = lookupJob r id := by
  induction r with
  | nil =>
    unfold lookupJob
    rw [List.nil_append,
      List.find?_cons_of_neg _
        (by simp only [decide_eq_true_eq]; exact fun hc => h hc.symm),
      List.find?_nil]
  | cons p ps ih =>
    unfold lookupJob at *
    rw [List.cons_append]
    by_cases hp : p.1 = id
    · rw [List.find?_cons_of_pos _ (by simp [hp]),
        List.find?_cons_of_pos _ (by simp [hp])]
    · rw [List.find?_cons_of_neg _ (by simp [hp]),
        List.find?_cons_of_neg _ (by simp [hp])]
      exact ih

lemma getStatus_createJob (r : Registry) {id id' : String} (ca : Nat)
    (ids : Option (List String)) (svc : Nat) (t minT maxT : ℚ) (h : id ≠ id') :
    getStatus ((createJob r id' ca ids svc t minT maxT).1) id = getStatus r id := by
  unfold createJob
  by_cases h1 : t < minT
  · rw [if_pos h1]
  · rw [if_neg h1]
    by_cases h2 : maxT < t
    · rw [if_pos h2]
    · rw [if_neg h2]
      by_cases h3 : resolvedDocCount ids svc < 2
      · rw [if_pos h3]
      · rw [if_neg h3]
        unfold getStatus
        rw [lookupJob_append_sing r _ h]

lemma mem_setJob_cases {r : Registry} {id : String} {f : Job → Job}
    {q : String × Job} (h : q ∈ setJob r id f) : q.1 = id ∨ q ∈ r := by
  unfold setJob at h
  obtain ⟨p, hp, heq⟩ := List.mem_map.mp h
  by_cases hpid : p.1 = id
  · rw [if_pos hpid] at heq
    left
    rw [← heq]
    exact hpid
  · rw [if_neg hpid] at heq
    right
    rw [← heq]
    exact hp

lemma registryInv_performAnalysis {r : Registry} {performed : List String}
    (id : String) (o : Except String Unit) (hinv : registryInv r performed) :
    registryInv (performAnalysis r id o) (id :: performed) := by
  intro q hq hterm
  have hcases : q.1 = id ∨ q ∈ r := by
    unfold performAnalysis at hq
    cases o with
    | ok _ =>
      rcases mem_setJob_cases hq with h | h
      · exact Or.inl h
      · exact mem_setJob_cases h
    | error msg =>
      rcases mem_setJob_cases hq with h | h
      · exact Or.inl h
      · exact mem_setJob_cases h
  rcases hcases with h | h
  · rw [h]
    exact List.mem_cons_self id performed
  · exact List.mem_cons_of_mem id (hinv q h hterm)

lemma registryInv_createJob {r : Registry} {performed : List String}
    (id : String) (ca : Nat) (ids : Option (List String)) (svc : Nat)
    (t minT maxT : ℚ) (hinv : registryInv r performed) :
    registryInv ((createJob r id ca ids svc t minT maxT).1) performed := by
  intro q hq hterm
  unfold createJob at hq
  by_cases h1 : t < minT
  · rw [if_pos h1] at hq
    exact hinv q hq hterm
  · rw [if_neg h1] at hq
    by_cases h2 : maxT < t
    · rw [if_pos h2] at hq
      exact hinv q hq hterm
    · rw [if_neg h2] at hq
      by_cases h3 : resolvedDocCount ids svc < 2
      · rw [if_pos h3] at hq
        exact hinv q hq hterm
      · rw [if_neg h3] at hq
        rcases List.mem_append.mp hq with h | h
        · exact hinv q h hterm
        · rw [List.mem_singleton] at h
          subst h
          rcases hterm with h | h <;> cases h

lemma runOps_preserves_terminal {r : Registry} {performed : List String}
    {ops : List OrchestratorOp} (hwf : WFOps r performed ops)
    (hinv : registryInv r performed) :
    ∀ {id : String} {s : JobStatus}, getStatus r id = some s → isTerminal s →
      getStatus (runOps r ops) id = some s := by
  induction hwf with
  | nil r performed => exact fun h _ => h
  | create hfresh hrest ih =>
    rename_i r performed id' ca ids svc t minT maxT ops
    intro id s hst hterm
    have hne : id ≠ id' := by
      rintro rfl
      obtain ⟨j, hj, hjs⟩ : ∃ j, lookupJob r id = some j ∧ j.status = s := by
        unfold getStatus at hst
        cases hl : lookupJob r id with
        | none => rw [hl] at hst; cases hst
        | some j =>
          rw [hl] at hst
          exact ⟨j, rfl, Option.some.injEq .. ▸ hst⟩
      exact hfresh (lookupJob_mem_keys hj)
    have hstep : getStatus (runOp r (.create id' ca ids svc t minT maxT)) id = some s := by
      show getStatus ((createJob r id' ca ids svc t minT maxT).1) id = some s
      rw [getStatus_createJob r ca ids svc t minT maxT hne]
      exact hst
    exact ih (registryInv_createJob id' ca ids svc t minT maxT hinv) hstep hterm
  | perform honce hrest ih =>
    rename_i r performed id' outcome ops
    intro id s hst hterm
    have hne : id ≠ id' := by
      rintro rfl
      obtain ⟨j, hj, hjs⟩ : ∃ j, lookupJob r id = some j ∧ j.status = s := by
        unfold getStatus at hst
        cases hl : lookupJob r id with
        | none => rw [hl] at hst; cases hst
        | some j =>
          rw [hl] at hst
          exact ⟨j, rfl, Option.some.injEq .. ▸ hst⟩
      exact honce (hinv (id, j) (lookupJob_mem hj) (hjs ▸ hterm))
    have hstep : getStatus (runOp r (.perform id' outcome)) id = some s := by
      show getStatus (performAnalysis r id' outcome) id = some s
      rw [getStatus_performAnalysis_ne r outcome hne]
      exact hst
    exact ih (registryInv_performAnalysis id' outcome hinv) hstep hterm
  | fetch hrest ih => exact fun hst hterm => ih hinv hst hterm
  | enumerate hrest ih => exact fun hst hterm => ih hinv hst hterm

lemma getStatus_updateStatus_self {r : Registry} {id : String} {j : Job}
    (st : JobStatus) (h : lookupJob r id = some j) :
    getStatus (updateStatus r id st) id = some st := by
  unfold getStatus updateStatus
  rw [lookupJob_setJob_self _ h]
  rfl

lemma getStatus_performAnalysis_self {r : Registry} {id : String} {j : Job}
    (o : Except String Unit) (h : lookupJob r id = some j) :
    getStatus (performAnalysis r id o) id = some (analysisOutcomeStatus o) := by
  unfold performAnalysis analysisOutcomeStatus
  cases o with
  | ok _ =>
    have h1 : lookupJob (updateStatus r id .processing) id =
        some { j with status := .processing } :=
      lookupJob_setJob_self _ h
    exact getStatus_updateStatus_self _ h1
  | error msg =>
    have h1 : lookupJob (updateStatus r id .processing) id =
        some { j with status := .processing } :=
      lookupJob_setJob_self _ h
    unfold getStatus
    rw [lookupJob_setJob_self _ h1]
    rfl

/-- C9: job statuses only move along
`Pending → Processing → {Completed | Failed}`.  First conjunct: along any
well-formed operation sequence (fresh creates, at most one background
execution per job, reads), a job whose status is terminal never changes status
again.  Second conjunct: one background execution takes a pending job to
`Processing` and then to a terminal status, following the spec's machine.
Third conjunct: the spec's machine has no transition out of a terminal
state. -/
theorem C9_status_machine :
    (∀ (r : Registry) (performed : List String) (ops : List OrchestratorOp)
      (id : String) (s : JobStatus),
      WFOps r performed ops → registryInv r performed →
      getStatus r id = some s → isTerminal s →
      getStatus (runOps r ops) id = some s) ∧
    (∀ (r : Registry) (id : String) (j : Job) (o : Except String Unit),
      lookupJob r id = some j → j.status = .pending →
      getStatus r id = some .pending ∧
      getStatus (updateStatus r id .processing) id = some .processing ∧
      getStatus (performAnalysis r id o) id = some (analysisOutcomeStatus o) ∧
      isTerminal (analysisOutcomeStatus o) ∧
      List.Chain' SpecStep [JobStatus.pending, .processing, analysisOutcomeStatus o]) ∧
    (∀ s s' : JobStatus, SpecStep s s' → ¬ isTerminal s) := by
  refine ⟨?_, ?_, ?_⟩
  · intro r performed ops id s hwf hinv hst hterm
    exact runOps_preserves_terminal hwf hinv hst hterm
  · intro r id j o hl hp
    refine ⟨?_, getStatus_updateStatus_self _ hl,
      getStatus_performAnalysis_self o hl, ?_, ?_⟩
    · unfold getStatus
      rw [hl, Option.map_some', hp]
    · cases o with
      | ok _ => exact Or.inl rfl
      | error _ => exact Or.inr rfl
    · cases o with
      | ok _ =>
        exact List.Chain'.cons SpecStep.toProcessing
          (List.Chain'.cons SpecStep.toCompleted (List.chain'_singleton _))
      | error _ =>
        exact List.Chain'.cons SpecStep.toProcessing
          (List.Chain'.cons SpecStep.toFailed (List.chain'_singleton _))
  · intro s s' hstep
    cases hstep with
    | toProcessing => rintro (h | h) <;> cases h
    | toCompleted => rintro (h | h) <;> cases h
    | toFailed => rintro (h | h) <;> cases h

/-- A concrete registry holding one completed and one pending job. -/
def wfRegistry : Registry :=
  [("j1", { status := .completed, totalDocuments := 2, errorMessage := none,
            createdAt := 0 }),
   ("j2", { status := .pending, totalDocuments := 2, errorMessage := none,
            createdAt := 1 })]

/-- A concrete well-formed operation sequence: create a fresh job, run job
`j2`, then the two read-only operations. -/
def wfOpsList : List OrchestratorOp :=
  [.create "j3" 2 none 3 (7/10) (1/2) 1, .perform "j2" (.ok ()), .fetch "j1",
   .enumerate]

/-- Witness for C9: the completed job `j1` keeps its status across the
concrete operation sequence, and running pending job `j2` follows the machine. -/
theorem C9_status_machine_witness :
    (WFOps wfRegistry ["j1"] wfOpsList ∧ registryInv wfRegistry ["j1"] ∧
      getStatus wfRegistry "j1" = some .completed ∧ isTerminal JobStatus.completed ∧
      getStatus (runOps wfRegistry wfOpsList) "j1" = some .completed) ∧
    (lookupJob wfRegistry "j2" =
        some { status := .pending, totalDocuments := 2, errorMessage := none,
               createdAt := 1 } ∧
      getStatus (performAnalysis wfRegistry "j2" (.ok ())) "j2" =
        some (analysisOutcomeStatus (.ok ()))) ∧
    ¬ isTerminal JobStatus.pending := by
  have hwf : WFOps wfRegistry ["j1"] wfOpsList := by
    refine WFOps.create (by decide) (WFOps.perform (by decide)
      (WFOps.fetch (WFOps.enumerate (WFOps.nil _ _))))
  have hinv : registryInv wfRegistry ["j1"] := by decide
  have hl2 : lookupJob wfRegistry "j2" =
      some { status := .pending, totalDocuments := 2, errorMessage := none,
             createdAt := 1 } := by decide
  refine ⟨⟨hwf, hinv, by decide, by decide,
      C9_status_machine.1 wfRegistry ["j1"] wfOpsList "j1" .completed hwf hinv
        (by decide) (by decide)⟩,
    ⟨hl2, (C9_status_machine.2.1 wfRegistry "j2" _ (.ok ()) hl2 rfl).2.2.1⟩,
    C9_status_machine.2.2 JobStatus.pending JobStatus.processing SpecStep.toProcessing⟩

/-! ## Rounding of reported similarities (C10)

Every similarity the pipeline reports is stored as `round(similarity, 4)` and
the pair sort compares the stored (rounded) values.  The three documents below
have pairwise raw cosine similarities `3499/10000 = 0.3499` and
`17499/50000 = 0.34998` against the first document: they differ by
`0.00008 < 10^-4` yet round to the different 4-decimal values `0.3499` and
`0.3500`, refuting the claim's consequence clause.  The integer components are
chosen so that every norm is exact:
`3499^2 + 9367^2 + 127^2 + 10^2 + 9^2 = 10000^2` and
`17499^2 + 46837^2 + 281^2 + 38^2 + 5^2 = 50000^2`. -/

/-- Three concrete feature documents with rational cosine similarities. -/
noncomputable def exDocs : List FeatDoc :=
  [{ docId := "u", filename := "u.txt", features := [1, 0, 0, 0, 0] },
   { docId := "v", filename := "v.txt", features := [3499, 9367, 127, 10, 9] },
   { docId := "w", filename := "w.txt", features := [17499, 46837, 281, 38, 5] }]

lemma exU_norm : l2norm [(1 : ℝ), 0, 0, 0, 0] = 1 := by
  unfold l2norm
  have h : (([(1 : ℝ), 0, 0, 0, 0]).map (fun x => x ^ 2)).sum = 1 := by norm_num
  rw [h, Real.sqrt_one]

lemma exV_norm : l2norm [(3499 : ℝ), 9367, 127, 10, 9] = 10000 := by
  unfold l2norm
  have h : (([(3499 : ℝ), 9367, 127, 10, 9]).map (fun x => x ^ 2)).sum = 10000 ^ 2 := by
    norm_num
  rw [h, Real.sqrt_sq (by norm_num : (0 : ℝ) ≤ 10000)]

lemma exW_norm : l2norm [(17499 : ℝ), 46837, 281, 38, 5] = 50000 := by
  unfold l2norm
  have h : (([(17499 : ℝ), 46837, 281, 38, 5]).map (fun x => x ^ 2)).sum = 50000 ^ 2 := by
    norm_num
  rw [h, Real.sqrt_sq (by norm_num : (0 : ℝ) ≤ 50000)]

lemma rawSim_exDocs_01 : rawSim exDocs 0 1 = 3499 / 10000 := by
  have h : rawSim exDocs 0 1 =
      cosineSimilarity [(1 : ℝ), 0, 0, 0, 0] [(3499 : ℝ), 9367, 127, 10, 9] := rfl
  rw [h, cosineSimilarity_of_ne_zero _ _ (by rw [exU_norm]; norm_num)
    (by rw [exV_norm]; norm_num), exU_norm, exV_norm]
  have hdot : dotProduct [(1 : ℝ), 0, 0, 0, 0] [(3499 : ℝ), 9367, 127, 10, 9] = 3499 := by
    unfold dotProduct
    norm_num
  rw [hdot, show (3499 : ℝ) / (1 * 10000) = 3499 / 10000 by norm_num,
    min_eq_right (by norm_num), max_eq_right (by norm_num)]

lemma rawSim_exDocs_02 : rawSim exDocs 0 2 = 17499 / 50000 := by
  have h : rawSim exDocs 0 2 =
      cosineSimilarity [(1 : ℝ), 0, 0, 0, 0] [(17499 : ℝ), 46837, 281, 38, 5] := rfl
  rw [h, cosineSimilarity_of_ne_zero _ _ (by rw [exU_norm]; norm_num)
    (by rw [exW_norm]; norm_num), exU_norm, exW_norm]
  have hdot : dotProduct [(1 : ℝ), 0, 0, 0, 0] [(17499 : ℝ), 46837, 281, 38, 5] = 17499 := by
    unfold dotProduct
    norm_num
  rw [hdot, show (17499 : ℝ) / (1 * 50000) = 17499 / 50000 by norm_num,
    min_eq_right (by norm_num), max_eq_right (by norm_num)]

lemma round4_of_3499 : round4 (3499 / 10000) = 3499 / 10000 := by
  unfold round4
  rw [show (3499 / 10000 : ℝ) * 10000 = ((3499 : ℤ) : ℝ) by norm_num, round_intCast]
  norm_num

lemma round4_of_17499 : round4 (17499 / 50000) = 3500 / 10000 := by
  unfold round4
  rw [show (17499 / 50000 : ℝ) * 10000 = 17499 / 5 by norm_num, round_eq,
    show (17499 / 5 : ℝ) + 1 / 2 = 35003 / 10 by norm_num]
  have h3 : ⌊(35003 / 10 : ℝ)⌋ = 3500 := by
    rw [Int.floor_eq_iff]
    constructor <;> norm_num
  rw [h3]
  norm_num

lemma allPairs_three : allPairs 3 = [(0, 1), (0, 2), (1, 2)] := by decide

lemma generatedPairs_exDocs : generatedPairs exDocs (7/10) true =
    [mkSimPair exDocs (7/10) 0 1, mkSimPair exDocs (7/10) 0 2,
     mkSimPair exDocs (7/10) 1 2] := by
  rw [generatedPairs_all, show exDocs.length = 3 from rfl, allPairs_three]
  rfl

/-- Counterexample for C10: in the output of `compute_pairs` on `exDocs`, the
pairs `(u, v)` and `(u, w)` have true (raw) similarities differing by less
than the rounding resolution `10^-4`, yet their stored similarities — the sort
keys — differ, so they do not compare equal in the sort. -/
theorem C10_counterexample :
    computePairwiseSimilarities exDocs (7/10) true =
      .ok (sortByKeyDesc (fun p => p.similarity) (generatedPairs exDocs (7/10) true)) ∧
    mkSimPair exDocs (7/10) 0 1 ∈
      sortByKeyDesc (fun p => p.similarity) (generatedPairs exDocs (7/10) true) ∧
    mkSimPair exDocs (7/10) 0 2 ∈
      sortByKeyDesc (fun p => p.similarity) (generatedPairs exDocs (7/10) true) ∧
    |rawSim exDocs 0 1 - rawSim exDocs 0 2| < 1 / 10000 ∧
    (mkSimPair exDocs (7/10) 0 1).similarity ≠
      (mkSimPair exDocs (7/10) 0 2).similarity := by
  refine ⟨?_, ?_, ?_, ?_, ?_⟩
  · unfold computePairwiseSimilarities minDocumentsForAnalysis
    rw [if_neg (by rw [show exDocs.length = 3 from rfl]; omega)]
  · rw [mem_sortByKeyDesc, generatedPairs_exDocs]
    exact List.mem_cons_self _ _
  · rw [mem_sortByKeyDesc, generatedPairs_exDocs]
    exact List.mem_cons_of_mem _ (List.mem_cons_self _ _)
  · rw [rawSim_exDocs_01, rawSim_exDocs_02, abs_lt]
    constructor <;> norm_num
  · rw [show (mkSimPair exDocs (7/10) 0 1).similarity =
        round4 (rawSim exDocs 0 1) from rfl,
      show (mkSimPair exDocs (7/10) 0 2).similarity =
        round4 (rawSim exDocs 0 2) from rfl,
      rawSim_exDocs_01, rawSim_exDocs_02, round4_of_3499, round4_of_17499]
    norm_num

/-- C10 amended: every reported similarity — the `similarity` field of each
returned pair and every cell of the similarity matrix — is `round(·, 4)` of
the raw value, and the descending sort of the pair list is applied to these
rounded values, so pairs whose true similarities round to the same 4-decimal
value compare equal in the sort (similarities that differ by less than the
rounding resolution may still round, and hence sort, differently). -/
theorem C10_amended (docs : List FeatDoc) (t : ℝ) (iap : Bool)
    (h : 2 ≤ docs.length) :
    computePairwiseSimilarities docs t iap =
      .ok (sortByKeyDesc (fun p => p.similarity) (generatedPairs docs t iap)) ∧
    (∀ p ∈ sortByKeyDesc (fun p => p.similarity) (generatedPairs docs t iap),
      ∃ i j, i < j ∧ j < docs.length ∧ p.similarity = round4 (rawSim docs i j)) ∧
    (∀ i j, i < docs.length → j < docs.length →
      (((createSimilarityMatrix docs).1.getD i []).getD j 0) =
        round4 (if i = j then 1 else rawSim docs i j)) ∧
    (sortByKeyDesc (fun p => p.similarity) (generatedPairs docs t iap)).Pairwise
      (fun a b => b.similarity ≤ a.similarity) ∧
    (∀ i j k l : Nat,
      round4 (rawSim docs i j) = round4 (rawSim docs k l) →
      (mkSimPair docs t i j).similarity = (mkSimPair docs t k l).similarity) := by
  refine ⟨?_, ?_, ?_, pairwise_sortByKeyDesc _ _, ?_⟩
  · unfold computePairwiseSimilarities minDocumentsForAnalysis
    rw [if_neg (by omega)]
  · intro p hp
    obtain ⟨i, j, hij, hjn, _, rfl⟩ :=
      (mem_generatedPairs docs t iap p).mp ((mem_sortByKeyDesc _ p _).mp hp)
    exact ⟨i, j, hij, hjn, rfl⟩
  · intro i j hi hj
    exact matrixCell docs hi hj
  · intro i j k l hr
    exact hr

/-- Witness for the amended C10 at the concrete three-document input. -/
theorem C10_amended_witness :
    2 ≤ exDocs.length ∧
    (∀ p ∈ sortByKeyDesc (fun p => p.similarity) (generatedPairs exDocs (7/10) true),
      ∃ i j, i < j ∧ j < exDocs.length ∧
        p.similarity = round4 (rawSim exDocs i j)) ∧
    (sortByKeyDesc (fun p => p.similarity) (generatedPairs exDocs (7/10) true)).Pairwise
      (fun a b => b.similarity ≤ a.similarity) :=
  ⟨by rw [show exDocs.length = 3 from rfl]; omega,
    (C10_amended exDocs (7/10) true
      (by rw [show exDocs.length = 3 from rfl]; omega)).2.1,
    (C10_amended exDocs (7/10) true
      (by rw [show exDocs.length = 3 from rfl]; omega)).2.2.2.1⟩

end DocSim
